import Mathlib

/-!
Verification development for the Vibe Context Bridge core engines:
the pattern-based security scanner (`SecurityValidator`), the
frontend/backend continuity checker (`ContinuityChecker`), the bounded
interaction log and maturity scoring (`ContextMemory`), and the context
validator (`ProjectContextManager`).

The TypeScript sources are shallowly embedded: classes become plain
functions over explicit state, clock reads (`new Date().toISOString()`)
become explicit `now : String` arguments, and the filesystem facts the
scanners discover become explicit list arguments.  JavaScript regular
expressions compiled from the concrete pattern strings of the repository
are modelled by a small backtracking matcher (`matchSeqAll` below) whose
order of exploration mirrors the JS engine (leftmost start position,
alternatives left to right, greedy quantifiers longest first), including
the statefulness of `RegExp.prototype.test` under the `g` flag
(`lastIndex` persists across calls on the same compiled regex).
-/

/-- Case-insensitive character comparison, as the `i` regex flag applies it
to ASCII literals. -/
def lowEq (a b : Char) : Bool := a.toLower == b.toLower

/-- `lcStarts pat s`: `pat` is a case-insensitive prefix of `s`. -/
def lcStarts : List Char → List Char → Bool
  | [], _ => true
  | _ :: _, [] => false
  | a :: as, b :: bs => lowEq a b && lcStarts as bs

/-- `inclChars needle hay` models JavaScript `hay.includes(needle)`
(case-sensitive substring containment). -/
def inclChars : List Char → List Char → Bool
  | needle, [] => needle.isEmpty
  | needle, c :: cs => needle.isPrefixOf (c :: cs) || inclChars needle cs

/-- `incl s sub` models JavaScript `s.includes(sub)`. -/
def incl (s sub : String) : Bool := inclChars sub.data s.data

/-- Split on a single separator character (all the `split` calls of the
embedded code use single-character separators); like JS `split`, empty
pieces are kept. -/
def charSplit (sep : Char) : List Char → List (List Char)
  | [] => [[]]
  | c :: cs =>
    let r := charSplit sep cs
    if c == sep then [] :: r
    else
      match r with
      | h :: t => (c :: h) :: t
      | [] => [[c]]

/-- JS `s.split(sep)` for a one-character separator. -/
def strSplit (s : String) (sep : Char) : List String :=
  (charSplit sep s.data).map String.mk

/-- JS `s.startsWith(pre)`. -/
def strStarts (s pre : String) : Bool := pre.data.isPrefixOf s.data

/-- JS `s.endsWith(suf)`. -/
def strEnds (s suf : String) : Bool := suf.data.reverse.isPrefixOf s.data.reverse

/-- JS `s.toLowerCase()` (ASCII). -/
def lowerStr (s : String) : String := String.mk (s.data.map Char.toLower)

/-- JS `s.toUpperCase()` (ASCII). -/
def upperStr (s : String) : String := String.mk (s.data.map Char.toUpper)

/-- One item of a (quantified) regex sequence.  Alternation of whole
sequences is handled one level up (a compiled regex is a list of
alternative sequences), which suffices for every pattern string occurring
in the repository once groups are distributed over their tails. -/
inductive RItem where
  /-- a literal, compared case-insensitively (the scanner always compiles
  with the `i` flag; literals are stored lowercase) -/
  | lit  : List Char → RItem
  /-- a single-character class such as `[=:]` or `[a-zA-Z0-9]` -/
  | cls  : (Char → Bool) → RItem
  /-- an optional single-character class, `[_-]?` -/
  | opt  : (Char → Bool) → RItem
  /-- a greedy star over a single-character class, `\s*`, `.*`, `[^"']*` -/
  | star : (Char → Bool) → RItem
  /-- a negative lookahead over literal alternatives,
  `(?!localhost|127\.0\.0\.1)` -/
  | nlk  : List (List Char) → RItem

/-- A compiled regex: alternatives (tried left to right), each a sequence
of items. -/
abbrev Regex : Type := List (List RItem)

/-- Length of the maximal prefix of `cs` whose characters satisfy `p`. -/
def takeWhileCount (p : Char → Bool) : List Char → Nat
  | [] => 0
  | c :: cs => if p c then takeWhileCount p cs + 1 else 0

/-- All ways a regex sequence can match a prefix of `cs`, each given by the
remaining suffix, listed in the exploration order of the JS backtracking
engine (greedy quantifiers longest first); the head is the match JS
commits to. -/
def matchSeqAll (items : List RItem) (cs : List Char) : List (List Char) :=
  match items with
  | [] => [cs]
  | .lit w :: rest =>
      if lcStarts w cs then matchSeqAll rest (cs.drop w.length) else []
  | .cls p :: rest =>
      match cs with
      | [] => []
      | c :: cs2 => if p c then matchSeqAll rest cs2 else []
  | .opt p :: rest =>
      (match cs with
       | c :: cs2 => if p c then matchSeqAll rest cs2 else []
       | [] => []) ++ matchSeqAll rest cs
  | .star p :: rest =>
      let k := takeWhileCount p cs
      (List.range (k + 1)).flatMap (fun t => matchSeqAll rest (cs.drop (k - t)))
  | .nlk ws :: rest =>
      if ws.any (fun w => lcStarts w cs) then [] else matchSeqAll rest cs

/-- Length (in characters) consumed by the match JS commits to at this
position, for the first alternative that matches. -/
def firstMatchLen (re : Regex) (cs : List Char) : Option Nat :=
  re.findSome? (fun a => (matchSeqAll a cs).head?.map (fun rem => cs.length - rem.length))

/-- Search for the leftmost match at or after absolute position `i`;
returns `(start, end)` indices. -/
def searchPosAux (re : Regex) : List Char → Nat → Option (Nat × Nat)
  | cs, i =>
    match firstMatchLen re cs with
    | some len => some (i, i + len)
    | none =>
      match cs with
      | [] => none
      | _ :: cs2 => searchPosAux re cs2 (i + 1)

/-- JS regex search in `s` starting at index `li` (the `lastIndex` of a
`g`-flagged regex). -/
def jsSearch (re : Regex) (s : String) (li : Nat) : Option (Nat × Nat) :=
  searchPosAux re (s.data.drop li) li

/-- `RegExp.prototype.test` on a `g`-flagged regex: returns the verdict and
the updated `lastIndex` (set past the match on success, reset to 0 on
failure). -/
def jsTestG (re : Regex) (s : String) (li : Nat) : Bool × Nat :=
  match jsSearch re s li with
  | some (_, e) => (true, e)
  | none => (false, 0)

/-! ## Security scanner data model (types.ts) -/

/-- `'error' | 'warning' | 'info'` severity enum. -/
inductive Severity where
  | error | warning | info
deriving DecidableEq, Repr

/-- A scanner finding (`SecurityIssue` in types.ts). -/
structure SecurityIssue where
  file : String
  line : Option Nat
  rule : String
  severity : Severity
  message : String
  suggestion : String
deriving DecidableEq, Repr

/-- A declared `SecurityPattern` together with the compiled form of its
`pattern` string (the source compiles it with `new RegExp(pattern, 'gi')`;
compilation of the concrete pattern strings of the repository is
transcribed below). -/
structure CompiledPattern where
  name : String
  regex : Regex
  severity : Severity
  message : String

/-! ## Character classes of the repository's pattern strings -/

/-- `[_-]` -/
def sepCls (c : Char) : Bool := c == '_' || c == '-'

/-- JS `\s` (ASCII subset; the exotic Unicode space characters never occur
in the inputs considered here). -/
def wsCls (c : Char) : Bool :=
  c == ' ' || c == '\t' || c == '\n' || c == '\r' || c == '\x0b' || c == '\x0c'

/-- `[=:]` -/
def eqColCls (c : Char) : Bool := c == '=' || c == ':'

/-- `["']` -/
def quoteCls (c : Char) : Bool := c == '"' || c == '\''

/-- `[^"']` -/
def notQuoteCls (c : Char) : Bool := !(quoteCls c)

/-- `[a-zA-Z0-9]` -/
def alnumCls (c : Char) : Bool := c.isAlphanum

/-- JS `.` (anything but a line terminator). -/
def dotCls (c : Char) : Bool := !(c == '\n' || c == '\r')

/-! ## The default security patterns

`ProjectContextManager.getDefaultSecurityPatterns` — the pattern set an
initialized context carries in `security.patterns`, hence the set
`SecurityValidator.scanFile` applies. -/

/-- Tail common to the hardcoded-api-key alternatives:
`\s*[=:]\s*["'][a-zA-Z0-9]{10,}["']`. -/
def apiKeyTail : List RItem :=
  [.star wsCls, .cls eqColCls, .star wsCls, .cls quoteCls] ++
    List.replicate 10 (.cls alnumCls) ++ [.star alnumCls, .cls quoteCls]

/-- `(api[_-]?key|secret[_-]?key)\s*[=:]\s*["'][a-zA-Z0-9]{10,}["']` -/
def pcmApiKeyRegex : Regex :=
  [[.lit "api".data, .opt sepCls, .lit "key".data] ++ apiKeyTail,
   [.lit "secret".data, .opt sepCls, .lit "key".data] ++ apiKeyTail]

/-- `SecurityValidator.getDefaultPatterns` variant with the extra
`access[_-]?token` alternative:
`(api[_-]?key|secret[_-]?key|access[_-]?token)\s*[=:]\s*["'][a-zA-Z0-9]{10,}["']` -/
def svApiKeyRegex : Regex :=
  pcmApiKeyRegex ++ [[.lit "access".data, .opt sepCls, .lit "token".data] ++ apiKeyTail]

/-- `password\s*[=:]\s*["'][^"']+["']` -/
def pcmPasswordRegex : Regex :=
  [[.lit "password".data, .star wsCls, .cls eqColCls, .star wsCls,
    .cls quoteCls, .cls notQuoteCls, .star notQuoteCls, .cls quoteCls]]

/-- `(SELECT|INSERT|UPDATE|DELETE).*\+.*\$|\$\{.*\}` (the group is
distributed over its tail; the final alternative is `\$\{.*\}`). -/
def pcmSqlRegex : Regex :=
  (["select", "insert", "update", "delete"].map (fun kw =>
    [RItem.lit kw.data, .star dotCls, .cls (fun c => c == '+'), .star dotCls,
     .cls (fun c => c == '$')])) ++
  [[.cls (fun c => c == '$'), .cls (fun c => c == '\x7b'), .star dotCls,
    .cls (fun c => c == '\x7d')]]

/-- `innerHTML\s*=\s*[^"']*\$|dangerouslySetInnerHTML` -/
def pcmXssRegex : Regex :=
  [[.lit "innerhtml".data, .star wsCls, .cls (fun c => c == '='), .star wsCls,
    .star notQuoteCls, .cls (fun c => c == '$')],
   [.lit "dangerouslysetinnerhtml".data]]

/-- `http://(?!localhost|127\.0\.0\.1)` -/
def pcmHttpRegex : Regex :=
  [[.lit "http://".data, .nlk ["localhost".data, "127.0.0.1".data]]]

/-- `(credit[_-]?card|cc[_-]?number|card[_-]?number)\s*[=:]` -/
def pcmCreditCardRegex : Regex :=
  [[.lit "credit".data, .opt sepCls, .lit "card".data, .star wsCls, .cls eqColCls],
   [.lit "cc".data, .opt sepCls, .lit "number".data, .star wsCls, .cls eqColCls],
   [.lit "card".data, .opt sepCls, .lit "number".data, .star wsCls, .cls eqColCls]]

/-- `(ssn|social[_-]?security|phone[_-]?number|email[_-]?address)\s*[=:]` -/
def pcmPersonalDataRegex : Regex :=
  [[.lit "ssn".data, .star wsCls, .cls eqColCls],
   [.lit "social".data, .opt sepCls, .lit "security".data, .star wsCls, .cls eqColCls],
   [.lit "phone".data, .opt sepCls, .lit "number".data, .star wsCls, .cls eqColCls],
   [.lit "email".data, .opt sepCls, .lit "address".data, .star wsCls, .cls eqColCls]]

/-- The seven default patterns of
`ProjectContextManager.getDefaultSecurityPatterns`, compiled. -/
def getDefaultSecurityPatterns : List CompiledPattern :=
  [{ name := "hardcoded-api-key", regex := pcmApiKeyRegex, severity := .error,
     message := "Hardcoded API key detected. Use environment variables instead." },
   { name := "hardcoded-password", regex := pcmPasswordRegex, severity := .error,
     message := "Hardcoded password detected. Use secure configuration management." },
   { name := "sql-injection-risk", regex := pcmSqlRegex, severity := .error,
     message := "Potential SQL injection vulnerability. Use parameterized queries." },
   { name := "xss-vulnerability", regex := pcmXssRegex, severity := .warning,
     message := "Potential XSS vulnerability. Sanitize user input before rendering." },
   { name := "insecure-http", regex := pcmHttpRegex, severity := .warning,
     message := "Insecure HTTP protocol detected. Use HTTPS in production." },
   { name := "credit-card-data", regex := pcmCreditCardRegex, severity := .error,
     message := "Credit card data handling detected. Ensure PCI DSS compliance." },
   { name := "personal-data", regex := pcmPersonalDataRegex, severity := .warning,
     message := "Personal data handling detected. Ensure GDPR/privacy compliance." }]

/-! ## SecurityValidator -/

/-- `SecurityValidator.getSuggestionForPattern` (the `line` argument is
unused in the source as well). -/
def getSuggestionForPattern (patternName : String) (_line : String) : String :=
  if patternName == "hardcoded-api-key" then
    "Move to environment variable: process.env.API_KEY"
  else if patternName == "hardcoded-password" then
    "Use environment variables and bcrypt for password hashing"
  else if patternName == "sql-injection-risk" then
    "Use parameterized queries or an ORM like Prisma/Sequelize"
  else if patternName == "xss-vulnerability" then
    "Use DOMPurify to sanitize HTML or avoid innerHTML"
  else if patternName == "insecure-http" then
    "Replace with https:// for production URLs"
  else
    "Review this security issue and apply appropriate fixes"

/-- `SecurityValidator.applySecurityPattern`: one compiled `gi` regex per
(pattern, file), `regex.test(line)` per line; the `lastIndex` of the shared
regex object persists across the `forEach` iterations exactly as in JS. -/
def applySecurityPattern (cp : CompiledPattern) (filePath : String)
    (lines : List String) : List SecurityIssue :=
  (lines.enum.foldl (fun acc x =>
    let (b, li) := jsTestG cp.regex x.2 acc.2
    if b then
      (acc.1 ++ [{ file := filePath, line := some (x.1 + 1), rule := cp.name,
                   severity := cp.severity, message := cp.message,
                   suggestion := getSuggestionForPattern cp.name x.2 }], li)
    else (acc.1, li)) ([], 0)).1

/-- `SecurityValidator.checkEnvironmentFile`. -/
def checkEnvironmentFile (filePath : String) (lines : List String) :
    List SecurityIssue :=
  lines.enum.filterMap (fun x =>
    let line := x.2
    if incl line "=" && !(strStarts line "#") then
      let parts := strSplit line '='
      let key := parts.getD 0 ""
      let value := parts.getD 1 ""
      if value.length > 10 && !(incl value "$\x7b") && !(incl value "your_") then
        if incl (lowerStr key) "key" || incl (lowerStr key) "secret" ||
            incl (lowerStr key) "token" then
          some { file := filePath, line := some (x.1 + 1), rule := "env-file-security",
                 severity := .warning,
                 message := "Environment file contains what appears to be real credentials. Ensure this file is not committed to version control.",
                 suggestion := "Add .env files to .gitignore and use placeholder values in committed examples" }
        else none
      else none
    else none)

/-- `SecurityValidator.checkPackageJson`.  `JSON.parse` of the file content
and the merge of `dependencies`/`devDependencies` are modelled by the
`depsOf` oracle passed to the scan (empty on parse failure, as the source
swallows the exception). -/
def checkPackageJson (deps : List String) (filePath : String) :
    List SecurityIssue :=
  (deps.filter (fun p => ["lodash", "moment", "request", "underscore"].contains p)).map
    (fun pkg =>
      { file := filePath, line := none, rule := "vulnerable-dependency",
        severity := .warning,
        message := "Package " ++ pkg ++ " may have known vulnerabilities. Consider updating or replacing.",
        suggestion := "Run \x27npm audit\x27 to check for vulnerabilities and update " ++ pkg ++ " to the latest version" })

/-- `SecurityValidator.checkCommonAntiPatterns`. -/
def checkCommonAntiPatterns (filePath : String) (lines : List String) :
    List SecurityIssue :=
  lines.enum.flatMap (fun x =>
    (if incl x.2 "eval(" then
      [{ file := filePath, line := some (x.1 + 1), rule := "eval-usage",
         severity := .error,
         message := "Use of eval() detected. This is a serious security risk.",
         suggestion := "Avoid eval(). Use JSON.parse() for JSON data or proper function calls" }]
     else []) ++
    (if incl x.2 "document.write(" then
      [{ file := filePath, line := some (x.1 + 1), rule := "document-write",
         severity := .warning,
         message := "document.write() usage detected. This can lead to XSS vulnerabilities.",
         suggestion := "Use DOM manipulation methods like createElement() and appendChild()" }]
     else []) ++
    (if incl x.2 "console.log" &&
        (incl x.2 "password" || incl x.2 "token" || incl x.2 "secret") then
      [{ file := filePath, line := some (x.1 + 1), rule := "console-log-sensitive",
         severity := .warning,
         message := "Console.log with potentially sensitive data detected.",
         suggestion := "Remove console.log statements with sensitive data before production" }]
     else []))

/-- `SecurityValidator.checkAuthenticationBypass`. -/
def checkAuthenticationBypass (filePath : String) (lines : List String) :
    List SecurityIssue :=
  lines.enum.flatMap (fun x =>
    (if incl x.2 "if (" && incl x.2 "||" && (incl x.2 "admin" || incl x.2 "bypass") then
      [{ file := filePath, line := some (x.1 + 1), rule := "auth-bypass-pattern",
         severity := .error,
         message := "Potential authentication bypass pattern detected.",
         suggestion := "Review authentication logic to ensure no unintended bypass conditions" }]
     else []) ++
    (if (incl x.2 "admin" || incl x.2 "root") && incl x.2 "password" then
      [{ file := filePath, line := some (x.1 + 1), rule := "hardcoded-admin",
         severity := .error,
         message := "Hardcoded admin credentials detected.",
         suggestion := "Use environment variables and secure credential management" }]
     else []))

/-- `SecurityValidator.checkDataExposure`. -/
def checkDataExposure (filePath : String) (lines : List String) :
    List SecurityIssue :=
  lines.enum.flatMap (fun x =>
    (if incl x.2 "res.json" && incl x.2 "user" &&
        (incl x.2 "password" || incl x.2 "secret") then
      [{ file := filePath, line := some (x.1 + 1), rule := "data-exposure",
         severity := .error,
         message := "Potential sensitive data exposure in API response.",
         suggestion := "Filter sensitive fields before sending API responses" }]
     else []) ++
    (if incl x.2 "SELECT *" && incl x.2 "user" then
      [{ file := filePath, line := some (x.1 + 1), rule := "sql-data-exposure",
         severity := .warning,
         message := "SELECT * query on user table may expose sensitive data.",
         suggestion := "Specify only the columns needed instead of using SELECT *" }]
     else []))

/-- `SecurityValidator.applyBuiltInSecurityChecks`. -/
def applyBuiltInSecurityChecks (depsOf : String → List String)
    (filePath content : String) (lines : List String) : List SecurityIssue :=
  (if incl filePath ".env" then checkEnvironmentFile filePath lines else []) ++
  (if strEnds filePath "package.json" then checkPackageJson (depsOf content) filePath else []) ++
  checkCommonAntiPatterns filePath lines ++
  checkAuthenticationBypass filePath lines ++
  checkDataExposure filePath lines

/-- `SecurityValidator.scanFile` for a readable file whose content is
`content` (the unreadable-file catch never yields issues): declared
patterns first, then the built-in checks. -/
def scanFileIssues (patterns : List CompiledPattern) (depsOf : String → List String)
    (filePath content : String) : List SecurityIssue :=
  let lines := strSplit content '\n'
  patterns.flatMap (fun p => applySecurityPattern p filePath lines) ++
    applyBuiltInSecurityChecks depsOf filePath content lines

/-! ## ProjectContext data model (types.ts)

Optional TS fields become `Option`s.  `security` is declared required by
the TS interface, but runtime values reach the code through an unchecked
cast of parsed YAML/JSON (`ProjectContextManager.loadContext`), and
`ContextMemory` itself guards every access with `security?.`; it is
therefore modelled as `Option` as well.  Fields that no claim and no
embedded operation reads (`architecture`, `response`/`security` on
endpoints, `config`/`routes` on authentication, `relationships`,
`required`/`unique`/`default` on fields, `pages`, `props`,
`codeGeneration`) are omitted. -/

/-- types.ts `ApiParameter`. -/
structure ApiParameter where
  name : String
  type : String
  required : Bool
deriving DecidableEq, Repr

/-- types.ts `ApiEndpoint`.  The HTTP method is kept as the string the code
compares with `===`. -/
structure ApiEndpoint where
  path : String
  method : String
  description : Option String
  parameters : Option (List ApiParameter)
  authentication : Option Bool
deriving DecidableEq, Repr

/-- types.ts `ApiConfiguration`. -/
structure ApiConfiguration where
  endpoints : Option (List ApiEndpoint)
deriving DecidableEq, Repr

/-- types.ts `SecurityConfiguration.rules`. -/
structure SecurityRules where
  enforceHttps : Option Bool
  inputSanitization : Option Bool
  sqlInjectionPrevention : Option Bool
  xssProtection : Option Bool
  csrfProtection : Option Bool
  corsConfiguration : Option Bool
  rateLimiting : Option Bool
  dataValidation : Option Bool
deriving DecidableEq, Repr

/-- A `SecurityRules` value with every toggle absent. -/
def noRules : SecurityRules :=
  { enforceHttps := none, inputSanitization := none,
    sqlInjectionPrevention := none, xssProtection := none,
    csrfProtection := none, corsConfiguration := none,
    rateLimiting := none, dataValidation := none }

/-- types.ts `SecurityPattern` (the declared, string-level form). -/
structure SecurityPattern where
  name : String
  pattern : String
  severity : Severity
  message : String
deriving DecidableEq, Repr

/-- types.ts `SecurityConfiguration`. -/
structure SecurityConfiguration where
  rules : Option SecurityRules
  patterns : Option (List SecurityPattern)
deriving DecidableEq, Repr

/-- types.ts `AuthenticationConfiguration` (only `type` is read by the
embedded operations). -/
structure AuthenticationConfiguration where
  type : Option String
deriving DecidableEq, Repr

/-- types.ts `DatabaseField` (only `name` is read). -/
structure DatabaseField where
  name : String
  type : String
deriving DecidableEq, Repr

/-- types.ts `DatabaseModel`. -/
structure DatabaseModel where
  name : String
  fields : List DatabaseField
deriving DecidableEq, Repr

/-- types.ts `DatabaseConfiguration`. -/
structure DatabaseConfiguration where
  models : Option (List DatabaseModel)
deriving DecidableEq, Repr

/-- types.ts `FrontendComponent` (only presence is read). -/
structure FrontendComponent where
  name : String
  path : String
deriving DecidableEq, Repr

/-- types.ts `FrontendConfiguration`. -/
structure FrontendConfiguration where
  components : Option (List FrontendComponent)
deriving DecidableEq, Repr

/-- types.ts `EnvironmentConfig` (only presence is read). -/
structure EnvironmentConfig where
  port : Option Nat
deriving DecidableEq, Repr

/-- types.ts `DeploymentConfiguration.environment`. -/
structure DeploymentEnvironments where
  development : Option EnvironmentConfig
  production : Option EnvironmentConfig
deriving DecidableEq, Repr

/-- types.ts `DeploymentConfiguration`. -/
structure DeploymentConfiguration where
  environment : Option DeploymentEnvironments
  platform : Option String
deriving DecidableEq, Repr

/-- types.ts `AiInteraction`; `metadata?: any` is modelled as an optional
opaque string. -/
structure AiInteraction where
  timestamp : String
  action : String
  context : String
  result : String
  metadata : Option String
deriving DecidableEq, Repr

/-- types.ts `ContextMemory` (the persisted section, not the class). -/
structure ContextMemoryData where
  lastUpdated : Option String
  aiInteractions : Option (List AiInteraction)
deriving DecidableEq, Repr

/-- types.ts `ProjectInfo` (only `name`/`type` are read). -/
structure ProjectInfo where
  name : String
  type : String
deriving DecidableEq, Repr

/-- types.ts `ProjectContext`. -/
structure ProjectContext where
  project : ProjectInfo
  api : Option ApiConfiguration
  security : Option SecurityConfiguration
  authentication : Option AuthenticationConfiguration
  database : Option DatabaseConfiguration
  frontend : Option FrontendConfiguration
  deployment : Option DeploymentConfiguration
  contextMemory : Option ContextMemoryData
deriving DecidableEq, Repr

/-- types.ts `ValidationError`. -/
structure ValidationError where
  path : String
  message : String
  severity : Severity
  suggestion : Option String
deriving DecidableEq, Repr

/-- types.ts `ValidationResult`. -/
structure ValidationResult where
  valid : Bool
  errors : List ValidationError
  warnings : List ValidationError
deriving DecidableEq, Repr

/-- types.ts `ContinuityIssue`; the `type` discriminator is kept as the
string the code stores. -/
structure ContinuityIssue where
  type : String
  frontend : String
  backend : String
  message : String
  suggestion : String
deriving DecidableEq, Repr

/-! ## ContinuityChecker -/

/-- The declared endpoint list, `this.context.api?.endpoints || []`. -/
def endpointsOf (ctx : ProjectContext) : List ApiEndpoint :=
  (ctx.api.bind (·.endpoints)).getD []

/-- The method alternatives of `/\.(get|post|put|delete|patch)/i`, in the
order the JS engine tries them. -/
def methodWords : List String := ["get", "post", "put", "delete", "patch"]

/-- Leftmost match of `/\.(get|post|put|delete|patch)/i`: the capture of
the first alternative matching at the earliest literal dot. -/
def findMethodIn : List Char → Option String
  | [] => none
  | c :: cs =>
    if c == '.' then
      match methodWords.find? (fun w => lcStarts w.data cs) with
      | some w => some w
      | none => findMethodIn cs
    else findMethodIn cs

/-- The class `['"\x60]` of `ContinuityChecker`'s URL-extraction regexes
(double quote, single quote or backtick). -/
def quote3 (c : Char) : Bool := c == '"' || c == '\'' || c == Char.ofNat 96

/-- Leftmost match of `/['"\x60]([^'"\x60]+)['"\x60]/`, returning the
capture: the earliest quote followed by a non-empty run of non-quote
characters and a closing quote. -/
def extractQuoted : List Char → Option String
  | [] => none
  | c :: cs =>
    if quote3 c then
      let run := cs.takeWhile (fun d => !(quote3 d))
      match cs.drop run.length with
      | d :: _ =>
        if run.length > 0 && quote3 d then some (String.mk run)
        else extractQuoted cs
      | [] => extractQuoted cs
    else extractQuoted cs

/-- `ContinuityChecker.parseApiCall`: `(method, path)`; the method defaults
to `GET` and the path to the empty string. -/
def parseApiCall (call : String) : String × String :=
  ((findMethodIn call.data).map upperStr |>.getD "GET",
   (extractQuoted call.data).getD "")

/-- `ContinuityChecker.parseApiCallWithLocation`:
`call.split(':')` destructured into its first two components (discovered
calls are always built as `file:match`, so both exist), parsed, with the
line hardcoded to 1 as in the source. -/
def parseApiCallWithLocation (call : String) : String × String × String × Nat :=
  let parts := strSplit call ':'
  let fileInfo := parts.getD 0 ""
  let callInfo := parts.getD 1 ""
  let (method, path) := parseApiCall callInfo
  (method, path, fileInfo, 1)

/-- `ContinuityChecker.checkApiContinuity`, with the frontend calls
discovered from the project (`findFrontendApiCalls`) passed explicitly:
unmatched frontend calls first, then unused declared endpoints. -/
def checkApiContinuity (ctx : ProjectContext) (frontendCalls : List String) :
    List ContinuityIssue :=
  let backendEndpoints := endpointsOf ctx
  let part1 := frontendCalls.filterMap (fun call =>
    let (method, path, file, line) := parseApiCallWithLocation call
    match backendEndpoints.find? (fun e => e.path == path && e.method == method) with
    | some _ => none
    | none => some
        { type := "api-mismatch",
          frontend := file ++ ":" ++ toString line ++ " - " ++ method ++ " " ++ path,
          backend := "No matching endpoint found",
          message := "Frontend calls " ++ method ++ " " ++ path ++
            " but no matching backend endpoint exists",
          suggestion := "Add " ++ method ++ " " ++ path ++
            " endpoint to your backend or update the frontend call" })
  let part2 := backendEndpoints.filterMap (fun e =>
    if frontendCalls.any (fun call =>
        let (method, path) := parseApiCall call
        e.path == path && e.method == method) then none
    else some
      { type := "api-mismatch",
        frontend := "No frontend usage found",
        backend := e.method ++ " " ++ e.path,
        message := "Backend endpoint " ++ e.method ++ " " ++ e.path ++
          " is not used by any frontend code",
        suggestion := "Remove unused endpoint or add frontend usage if needed" })
  part1 ++ part2

/-- `ContinuityChecker.shouldRequireAuth`. -/
def shouldRequireAuth (path : String) : Bool :=
  ["user", "profile", "dashboard", "admin", "account"].any
    (fun authPath => incl (lowerStr path) authPath)

/-- `ContinuityChecker.inferParameters` (the source returns `[]`). -/
def inferParameters (_call : String) : List ApiParameter := []

/-- `ContinuityChecker.generateMissingEndpoints`. -/
def generateMissingEndpoints (ctx : ProjectContext) (frontendCalls : List String) :
    List ApiEndpoint :=
  let existingPaths := (endpointsOf ctx).map (·.path)
  frontendCalls.filterMap (fun call =>
    let (method, path) := parseApiCall call
    if path != "" && !(existingPaths.contains path) then
      some { path := path, method := method,
             description := some ("Auto-generated endpoint for " ++ path),
             parameters := some (inferParameters call),
             authentication := some (shouldRequireAuth path) }
    else none)

/-! ## ContextMemory -/

/-- The stored interaction log, `this.context.contextMemory?.aiInteractions`
defaulted to `[]` (absent section or absent list behave alike for every
reader). -/
def aiInteractionsOf (ctx : ProjectContext) : List AiInteraction :=
  (ctx.contextMemory.bind (·.aiInteractions)).getD []

/-- `contextMemory?.lastUpdated`. -/
def lastUpdatedOf (ctx : ProjectContext) : Option String :=
  ctx.contextMemory.bind (·.lastUpdated)

/-- `ContextMemory.recordInteraction` for a `ContextMemory` constructed
with cap `maxInteractions`: initialize the missing sections, build the
interaction, `unshift` it, truncate with `slice(0, maxInteractions)` when
over the cap, refresh `lastUpdated`.  The two `new Date().toISOString()`
reads are the single argument `now`. -/
def recordInteraction (maxInteractions : Nat) (ctx : ProjectContext)
    (action contextInfo result : String) (metadata : Option String)
    (now : String) : ProjectContext :=
  let cm := ctx.contextMemory.getD { lastUpdated := none, aiInteractions := none }
  let existing := cm.aiInteractions.getD []
  let interaction : AiInteraction :=
    { timestamp := now, action := action, context := contextInfo,
      result := result, metadata := metadata }
  let unshifted := interaction :: existing
  let trimmed :=
    if unshifted.length > maxInteractions then unshifted.take maxInteractions
    else unshifted
  let newCm := { cm with aiInteractions := some trimmed, lastUpdated := some now }
  { ctx with contextMemory := some newCm }

/-- The action-count table of `analyzeInteractionPatterns`: a JS object's
keys enumerate in insertion order, so counts are listed in order of each
action's first occurrence. -/
def countActions (l : List AiInteraction) : List (String × Nat) :=
  l.foldl (fun acc i =>
    if acc.any (fun p => p.1 == i.action) then
      acc.map (fun p => if p.1 == i.action then (p.1, p.2 + 1) else p)
    else acc ++ [(i.action, 1)]) []

/-- Insert into a list already sorted by descending count, after every
entry of greater-or-equal count (stability of `Array.prototype.sort`). -/
def insertByCountDesc (x : String × Nat) : List (String × Nat) → List (String × Nat)
  | [] => [x]
  | y :: ys => if y.2 < x.2 then x :: y :: ys else y :: insertByCountDesc x ys

/-- `entries.sort(([, a], [, b]) => b - a)`: the stable descending-by-count
ordering. -/
def sortByCountDesc (l : List (String × Nat)) : List (String × Nat) :=
  l.foldl (fun acc x => insertByCountDesc x acc) []

/-- `analyzeInteractionPatterns().commonActions`: empty when the log is
missing or empty (the early return), otherwise the top five actions by
descending count. -/
def commonActionsOf (ctx : ProjectContext) : List (String × Nat) :=
  let l := aiInteractionsOf ctx
  if l.isEmpty then [] else (sortByCountDesc (countActions l)).take 5

/-- The most-frequent-action rule of `generateSuggestions` (the `switch` on
`commonActions[0].action`; actions outside the four cases add nothing). -/
def topActionSuggestion (ctx : ProjectContext) : List String :=
  match (commonActionsOf ctx).head? with
  | none => []
  | some top =>
    if top.1 == "component-creation" then
      ["Consider creating a component library for reusable components"]
    else if top.1 == "api-endpoint-creation" then
      ["Consider implementing API documentation with Swagger/OpenAPI"]
    else if top.1 == "security-fix" then
      ["Consider implementing automated security scanning in your CI/CD pipeline"]
    else if top.1 == "database-model" then
      ["Consider setting up database migrations for schema changes"]
    else []

/-- `!this.context.api?.endpoints || this.context.api.endpoints.length === 0` -/
def endpointsMissing (ctx : ProjectContext) : Bool :=
  match ctx.api.bind (·.endpoints) with
  | none => true
  | some l => l.isEmpty

/-- `!this.context.authentication || this.context.authentication.type === 'none'` -/
def authMissing (ctx : ProjectContext) : Bool :=
  match ctx.authentication with
  | none => true
  | some a => a.type == some "none"

/-- `!this.context.security?.rules?.enforceHttps` -/
def httpsNotEnforced (ctx : ProjectContext) : Bool :=
  !(((ctx.security.bind (·.rules)).bind (·.enforceHttps)) == some true)

/-- `!this.context.frontend?.components || ...length === 0` -/
def componentsMissing (ctx : ProjectContext) : Bool :=
  match ctx.frontend.bind (·.components) with
  | none => true
  | some l => l.isEmpty

/-- `!this.context.database?.models || ...length === 0` -/
def modelsMissing (ctx : ProjectContext) : Bool :=
  match ctx.database.bind (·.models) with
  | none => true
  | some l => l.isEmpty

/-- `ContextMemory.generateSuggestions`: the most-frequent-action rule,
then the five completeness rules in source order, capped with
`slice(0, 5)`. -/
def generateSuggestions (ctx : ProjectContext) : List String :=
  (topActionSuggestion ctx ++
   (if endpointsMissing ctx then
      ["Define your API endpoints in the project context for better continuity checking"]
    else []) ++
   (if authMissing ctx then
      ["Consider implementing authentication for your application"]
    else []) ++
   (if httpsNotEnforced ctx then
      ["Enable HTTPS enforcement for production security"]
    else []) ++
   (if componentsMissing ctx then
      ["Document your frontend components for better project understanding"]
    else []) ++
   (if modelsMissing ctx then
      ["Define your database models in the project context"]
    else [])).take 5

/-- `ContextMemory.assessProjectMaturity`, the score accumulation. -/
def maturityScore (ctx : ProjectContext) : Nat :=
  (if (match ctx.api.bind (·.endpoints) with
       | some l => decide (l.length > 0)
       | none => false) then 20 else 0) +
  (if (match ctx.authentication with
       | some a => a.type != some "none"
       | none => false) then 20 else 0) +
  (if ((ctx.security.bind (·.rules)).bind (·.enforceHttps)) == some true
   then 15 else 0) +
  (if (match ctx.database.bind (·.models) with
       | some l => decide (l.length > 0)
       | none => false) then 15 else 0) +
  (if (match ctx.frontend.bind (·.components) with
       | some l => decide (l.length > 0)
       | none => false) then 15 else 0) +
  (if (match ctx.deployment.bind (·.platform) with
       | some s => s != ""
       | none => false) then 15 else 0)

/-- `ContextMemory.assessProjectMaturity`, the threshold mapping. -/
def assessProjectMaturity (ctx : ProjectContext) : String :=
  if 80 ≤ maturityScore ctx then "mature"
  else if 50 ≤ maturityScore ctx then "developing"
  else if 25 ≤ maturityScore ctx then "early"
  else "initial"

/-! ## ProjectContextManager -/

/-- `ProjectContextManager.recordAiInteraction`: initialize the missing
sections, `push` the interaction at the end, keep the last 50 with
`slice(-50)` when over 50; `lastUpdated` is not touched. -/
def recordAiInteraction (ctx : ProjectContext)
    (now action contextInfo result : String) : ProjectContext :=
  let cm := ctx.contextMemory.getD { lastUpdated := none, aiInteractions := none }
  let existing := cm.aiInteractions.getD []
  let pushed := existing ++
    [{ timestamp := now, action := action, context := contextInfo,
       result := result, metadata := none }]
  let trimmed :=
    if pushed.length > 50 then pushed.drop (pushed.length - 50) else pushed
  let newCm := { cm with aiInteractions := some trimmed }
  { ctx with contextMemory := some newCm }

/-- The sensitive-term list of `validateBusinessLogic`. -/
def sensitiveTerms : List String := ["password", "email", "phone", "ssn", "credit_card"]

/-- First block of `validateBusinessLogic`: auth-flagged endpoints while
`authentication.type === 'none'` (warnings). -/
def authEndpointWarnings (ctx : ProjectContext) : List ValidationError :=
  match ctx.api.bind (·.endpoints), ctx.authentication with
  | some endpoints, some auth =>
    endpoints.filterMap (fun e =>
      if e.authentication == some true && auth.type == some "none" then
        some { path := "api.endpoints[" ++ e.path ++ "]",
               message := "Endpoint requires authentication but no auth method is configured",
               severity := .warning,
               suggestion := some "Configure authentication or remove auth requirement from endpoint" }
      else none)
  | _, _ => []

/-- `context.database.models.some(model => model.fields.some(field => ...))` -/
def hasSensitiveData (models : List DatabaseModel) : Bool :=
  models.any (fun m => m.fields.any (fun f =>
    sensitiveTerms.any (fun s => incl (lowerStr f.name) s)))

/-- Second block of `validateBusinessLogic`.  When it is reached with
sensitive data present, the source reads `context.security.rules` without
a guard: a context lacking `security` makes it throw a `TypeError`,
modelled by `Except.error ()`. -/
def sensitiveDataErrors (ctx : ProjectContext) :
    Except Unit (List ValidationError) :=
  match ctx.database.bind (·.models) with
  | some models =>
    if hasSensitiveData models then
      match ctx.security with
      | none => .error ()
      | some sec =>
        if !((sec.rules.bind (·.inputSanitization)) == some true) then
          .ok [{ path := "security.rules.inputSanitization",
                 message := "Input sanitization must be enabled when handling sensitive data",
                 severity := .error,
                 suggestion := some "Enable inputSanitization in security rules" }]
        else .ok []
    else .ok []
  | none => .ok []

/-- Third block of `validateBusinessLogic`: production deployment without
enforced HTTPS; the same unguarded `context.security.rules` read. -/
def productionHttpsErrors (ctx : ProjectContext) :
    Except Unit (List ValidationError) :=
  match (ctx.deployment.bind (·.environment)).bind (·.production) with
  | some _ =>
    match ctx.security with
    | none => .error ()
    | some sec =>
      if !((sec.rules.bind (·.enforceHttps)) == some true) then
        .ok [{ path := "security.rules.enforceHttps",
               message := "HTTPS must be enforced in production environment",
               severity := .error,
               suggestion := some "Enable enforceHttps in security rules" }]
      else .ok []
  | none => .ok []

/-- `ProjectContextManager.validateBusinessLogic`: the three blocks in
source order; an exception in an earlier block preempts the later ones. -/
def validateBusinessLogic (ctx : ProjectContext) :
    Except Unit (List ValidationError × List ValidationError) :=
  let warnings := authEndpointWarnings ctx
  match sensitiveDataErrors ctx with
  | .error e => .error e
  | .ok errs2 =>
    match productionHttpsErrors ctx with
    | .error e => .error e
    | .ok errs3 => .ok (errs2 ++ errs3, warnings)

/-- `ProjectContextManager.validateContext`.  The Ajv schema validation is
the `schemaErrors` collaborator (the schema file is not part of the
scanned sources; `loadSchema` degrades to no schema errors when it cannot
load it); `valid` is `errors.length === 0`. -/
def validateContext (schemaErrors : ProjectContext → List ValidationError)
    (ctx : ProjectContext) : Except Unit ValidationResult :=
  match validateBusinessLogic ctx with
  | .error e => .error e
  | .ok (berrs, bwarns) =>
    let errors := schemaErrors ctx ++ berrs
    .ok { valid := errors.isEmpty, errors := errors, warnings := bwarns }

/-- Whether a `validateContext` run ended in the modelled `TypeError`. -/
def vcThrew (x : Except Unit ValidationResult) : Bool :=
  match x with
  | .error _ => true
  | .ok _ => false

/-- The errors of a `validateContext` run that returned. -/
def vcErrors (x : Except Unit ValidationResult) : List ValidationError :=
  match x with
  | .ok r => r.errors
  | .error _ => []

/-- The `valid` flag of a `validateContext` run that returned. -/
def vcValid (x : Except Unit ValidationResult) : Bool :=
  match x with
  | .ok r => r.valid
  | .error _ => false

/-! ## Claim-side (specification) definitions -/

/-- The six maturity facets named by the spec. -/
structure MaturityFacets where
  hasEndpoints : Bool
  hasAuth : Bool
  hasHttps : Bool
  hasModels : Bool
  hasComponents : Bool
  hasPlatform : Bool
deriving DecidableEq, Repr

/-- The facet vector of a context (the six boolean conditions the score
accumulation tests). -/
def facetsOf (ctx : ProjectContext) : MaturityFacets :=
  { hasEndpoints := match ctx.api.bind (·.endpoints) with
      | some l => decide (l.length > 0)
      | none => false,
    hasAuth := match ctx.authentication with
      | some a => a.type != some "none"
      | none => false,
    hasHttps := ((ctx.security.bind (·.rules)).bind (·.enforceHttps)) == some true,
    hasModels := match ctx.database.bind (·.models) with
      | some l => decide (l.length > 0)
      | none => false,
    hasComponents := match ctx.frontend.bind (·.components) with
      | some l => decide (l.length > 0)
      | none => false,
    hasPlatform := match ctx.deployment.bind (·.platform) with
      | some s => s != ""
      | none => false }

/-- The spec's weighted sum: +20 endpoints, +20 auth, +15 HTTPS, +15
models, +15 components, +15 platform. -/
def facetWeightedSum (f : MaturityFacets) : Nat :=
  (if f.hasEndpoints then 20 else 0) +
  (if f.hasAuth then 20 else 0) +
  (if f.hasHttps then 15 else 0) +
  (if f.hasModels then 15 else 0) +
  (if f.hasComponents then 15 else 0) +
  (if f.hasPlatform then 15 else 0)

/-- The spec's cutoff mapping 25/50/80. -/
def maturityLabelSpec (score : Nat) : String :=
  if 80 ≤ score then "mature"
  else if 50 ≤ score then "developing"
  else if 25 ≤ score then "early"
  else "initial"

/-- Pointwise facet implication: `g` has every facet `f` has. -/
def facetsLe (f g : MaturityFacets) : Prop :=
  (f.hasEndpoints = true → g.hasEndpoints = true) ∧
  (f.hasAuth = true → g.hasAuth = true) ∧
  (f.hasHttps = true → g.hasHttps = true) ∧
  (f.hasModels = true → g.hasModels = true) ∧
  (f.hasComponents = true → g.hasComponents = true) ∧
  (f.hasPlatform = true → g.hasPlatform = true)

instance (f g : MaturityFacets) : Decidable (facetsLe f g) := by
  unfold facetsLe; infer_instance

/-- Claim-side reading of `generateMissingEndpoints`: one endpoint per
call without a declared match, with the auto description, empty inferred
parameters and the keyword heuristic for the auth flag. -/
def specMissingEndpoints (ctx : ProjectContext) (frontendCalls : List String) :
    List ApiEndpoint :=
  frontendCalls.filterMap (fun call =>
    let (method, path) := parseApiCall call
    if (endpointsOf ctx).any (fun e => e.path == path) then none
    else some
      { path := path, method := method,
        description := some ("Auto-generated endpoint for " ++ path),
        parameters := some [],
        authentication := some (["user", "profile", "dashboard", "admin", "account"].any
          (fun keyword => incl (lowerStr path) keyword)) })

/-- The five completeness rules of `generateSuggestions` in their fixed
evaluation order, as (trigger, suggestion) pairs. -/
def c9CompletenessRules (ctx : ProjectContext) : List (Bool × String) :=
  [(endpointsMissing ctx,
    "Define your API endpoints in the project context for better continuity checking"),
   (authMissing ctx,
    "Consider implementing authentication for your application"),
   (httpsNotEnforced ctx,
    "Enable HTTPS enforcement for production security"),
   (componentsMissing ctx,
    "Document your frontend components for better project understanding"),
   (modelsMissing ctx,
    "Define your database models in the project context")]

/-- Claim-side suggestion list: the most-frequent-action rule first, then
the triggered completeness rules in evaluation order. -/
def specSuggestionList (ctx : ProjectContext) : List String :=
  topActionSuggestion ctx ++
    (c9CompletenessRules ctx).filterMap (fun r => if r.1 then some r.2 else none)

/-- The sanitization validation error of `validateBusinessLogic`. -/
def sanitizationError : ValidationError :=
  { path := "security.rules.inputSanitization",
    message := "Input sanitization must be enabled when handling sensitive data",
    severity := .error,
    suggestion := some "Enable inputSanitization in security rules" }

/-- The production-HTTPS validation error of `validateBusinessLogic`. -/
def httpsError : ValidationError :=
  { path := "security.rules.enforceHttps",
    message := "HTTPS must be enforced in production environment",
    severity := .error,
    suggestion := some "Enable enforceHttps in security rules" }

/-! ## Concrete contexts used in the theorems -/

/-- A minimal context: every optional section absent. -/
def baseCtx : ProjectContext :=
  { project := { name := "demo", type := "web-app" },
    api := none, security := none, authentication := none, database := none,
    frontend := none, deployment := none, contextMemory := none }

/-- The declared endpoint `GET /api/products` of the continuity scenario. -/
def productsEndpoint : ApiEndpoint :=
  { path := "/api/products", method := "GET", description := none,
    parameters := none, authentication := none }

/-- Context declaring exactly `GET /api/products`. -/
def ctxDeclaredProducts : ProjectContext :=
  { baseCtx with api := some { endpoints := some [productsEndpoint] } }

/-- A database model with a `password` field. -/
def userPasswordModel : DatabaseModel :=
  { name := "User",
    fields := [{ name := "password", type := "string" }] }

/-- Sensitive model present, `inputSanitization` explicitly `false`. -/
def ctxSanitizationOff : ProjectContext :=
  { baseCtx with
    security := some { rules := some { noRules with inputSanitization := some false },
                       patterns := none },
    database := some { models := some [userPasswordModel] } }

/-- `ctxSanitizationOff` plus a production deployment without enforced
HTTPS: two validation errors at once. -/
def ctxSanitizationOffProd : ProjectContext :=
  { ctxSanitizationOff with
    deployment := some { environment := some { development := none,
                                               production := some { port := none } },
                         platform := none } }

/-- Sensitive model present but no `security` section at all (as an
unvalidated loaded context can be). -/
def ctxNoSecuritySensitive : ProjectContext :=
  { baseCtx with database := some { models := some [userPasswordModel] } }

/-- A fully configured context with an empty interaction log: every
suggestion rule is off. -/
def ctxComplete : ProjectContext :=
  { baseCtx with
    api := some { endpoints := some [productsEndpoint] },
    authentication := some { type := some "jwt" },
    security := some { rules := some { noRules with enforceHttps := some true },
                       patterns := none },
    frontend := some { components := some [{ name := "App", path := "src/App.tsx" }] },
    database := some { models := some [{ name := "Item",
                                         fields := [{ name := "id", type := "string" }] }] } }

/-- Context whose only configured facet is `jwt` authentication. -/
def ctxJwtOnly : ProjectContext :=
  { baseCtx with authentication := some { type := some "jwt" } }

/-- The literal-`secret` security pattern used to exhibit the stateful
`lastIndex` bug (its pattern string `secret` compiles to a bare literal). -/
def secretScanPattern : CompiledPattern :=
  { name := "secret-scan", regex := [[.lit "secret".data]], severity := .error,
    message := "Secret detected." }

/-- The spec's scenario-A line (Stripe-style key with underscores). -/
def skLiveLine : String := "const apiKey = \"sk_live_abcdef1234567890\";"

/-- The same line with a purely alphanumeric key value. -/
def alnumKeyLine : String := "const apiKey = \"abcdef1234567890\";"

/-! ## Claim theorems -/

/-- **C1.** The claim says every line matching a declared pattern yields
exactly one Issue.  The code compiles each pattern once with the `g` flag
and calls `regex.test(line)` per line, so `lastIndex` persists across
lines: on the file `secret\nsecret` the pattern `secret` (severity
`error`) flags line 1 only — line 2 is tested from offset 6 and missed —
although a fresh search of line 2 (second conjunct) does match.  This
evaluation witnesses the divergence between the code and the claim. -/
theorem C1_pattern_scan_skips_matching_line :
    applySecurityPattern secretScanPattern "config.js" (strSplit "secret\nsecret" '\n') =
      [{ file := "config.js", line := some 1, rule := "secret-scan",
         severity := .error, message := "Secret detected.",
         suggestion := "Review this security issue and apply appropriate fixes" }] ∧
    (jsSearch secretScanPattern.regex "secret" 0).isSome = true := by
  decide

/-- **C2.** Continuity symmetry: with `GET /api/products` declared and no
frontend calls, `checkApiContinuity` reports exactly one `api-mismatch`
whose `backend` field names the endpoint; with no declared endpoints and
the single discovered call `app.js:fetch("/api/products")`, it reports
exactly one `api-mismatch` whose `frontend` field names the call site. -/
theorem C2_api_continuity_symmetry :
    checkApiContinuity ctxDeclaredProducts [] =
      [{ type := "api-mismatch",
         frontend := "No frontend usage found",
         backend := "GET /api/products",
         message := "Backend endpoint GET /api/products is not used by any frontend code",
         suggestion := "Remove unused endpoint or add frontend usage if needed" }] ∧
    checkApiContinuity baseCtx ["app.js:fetch(\"/api/products\")"] =
      [{ type := "api-mismatch",
         frontend := "app.js:1 - GET /api/products",
         backend := "No matching endpoint found",
         message := "Frontend calls GET /api/products but no matching backend endpoint exists",
         suggestion := "Add GET /api/products endpoint to your backend or update the frontend call" }] := by
  decide

/-- **C4, counterexample.** Scanning a file consisting of the spec's
scenario-A line with the default security patterns produces no issue at
all — in particular no `hardcoded-api-key` issue: the value
`sk_live_abcdef1234567890` contains underscores, which the pattern's
`[a-zA-Z0-9]{10,}` character class rejects.  The `SecurityValidator`
variant of the pattern (second conjunct) rejects the line as well. -/
theorem C4_sk_live_not_flagged :
    scanFileIssues getDefaultSecurityPatterns (fun _ => []) "app.js" skLiveLine = [] ∧
    jsSearch svApiKeyRegex skLiveLine 0 = none := by
  decide

/-- **C4, amended.** With a purely alphanumeric key value of at least ten
characters, the scan produces exactly the `hardcoded-api-key` Issue with
severity `error` at that line's 1-based index. -/
theorem C4_alnum_key_flagged :
    scanFileIssues getDefaultSecurityPatterns (fun _ => []) "app.js" alnumKeyLine =
      [{ file := "app.js", line := some 1, rule := "hardcoded-api-key",
         severity := .error,
         message := "Hardcoded API key detected. Use environment variables instead.",
         suggestion := "Move to environment variable: process.env.API_KEY" }] := by
  decide

/-- **C5, counterexample.** `validateContext` is not total on contexts
lacking the `security` section: with a sensitive database field present,
`validateBusinessLogic` reads `context.security.rules` unguarded and
throws a `TypeError`. -/
theorem C5_validateContext_throws_without_security :
    vcThrew (validateContext (fun _ => []) ctxNoSecuritySensitive) = true := by
  decide

/-- **C6, counterexample.** A context with a `password` field and
`inputSanitization = false` that additionally configures a production
deployment without enforced HTTPS yields two errors, not exactly one. -/
theorem C6_two_errors_not_one :
    (vcErrors (validateContext (fun _ => []) ctxSanitizationOffProd)).length = 2 ∧
    vcValid (validateContext (fun _ => []) ctxSanitizationOffProd) = false := by
  decide

/-- **C9, counterexample.** `generateSuggestions` can return the empty
list (claimed to be impossible): on a fully configured context with an
empty interaction log every rule is off. -/
theorem C9_suggestions_can_be_empty :
    generateSuggestions ctxComplete = [] := by
  decide

/-! ## Helper lemmas -/

/-- The `unshift`-then-`slice(0, cap)` discipline is `take cap`. -/
theorem take_trim {α : Type} (l : List α) (cap : Nat) :
    (if l.length > cap then l.take cap else l) = l.take cap := by
  split
  · rfl
  · next h => exact (List.take_of_length_le (by omega)).symm

/-- The `push`-then-`slice(-50)` discipline is `drop (length - 50)`. -/
theorem drop_trim {α : Type} (l : List α) :
    (if l.length > 50 then l.drop (l.length - 50) else l) =
      l.drop (l.length - 50) := by
  split
  · rfl
  · next h => rw [Nat.sub_eq_zero_of_le (by omega), List.drop_zero]

/-- Last element of a list with one appended. -/
theorem getLast?_append_single {α : Type} (l : List α) (a : α) :
    (l ++ [a]).getLast? = some a := by
  induction l with
  | nil => rfl
  | cons x xs ih =>
    rw [List.cons_append, List.getLast?_cons, ih]
    cases xs <;> simp

/-- **C3.** `ContextMemory.recordInteraction` with cap `maxInteractions ≥ 1`
keeps the log equal to `take cap` of the new interaction consed onto the
previous log — hence bounded by the cap, newest entry first, and only the
oldest (tail) entries evicted — and refreshes `lastUpdated` to the call
time.  Holding for every prior context, this holds after each call of any
call sequence. -/
theorem C3_recordInteraction_bounded_newest_first
    (cap : Nat) (ctx : ProjectContext) (action contextInfo result : String)
    (metadata : Option String) (now : String) (hcap : 1 ≤ cap) :
    aiInteractionsOf (recordInteraction cap ctx action contextInfo result metadata now) =
      ({ timestamp := now, action := action, context := contextInfo,
         result := result, metadata := metadata } :: aiInteractionsOf ctx).take cap ∧
    (aiInteractionsOf (recordInteraction cap ctx action contextInfo result metadata now)).head? =
      some { timestamp := now, action := action, context := contextInfo,
             result := result, metadata := metadata } ∧
    (aiInteractionsOf (recordInteraction cap ctx action contextInfo result metadata now)).length ≤ cap ∧
    lastUpdatedOf (recordInteraction cap ctx action contextInfo result metadata now) = some now := by
  have hrec : aiInteractionsOf (recordInteraction cap ctx action contextInfo result metadata now) =
      ({ timestamp := now, action := action, context := contextInfo,
         result := result, metadata := metadata } :: aiInteractionsOf ctx).take cap := by
    cases hcm : ctx.contextMemory <;>
      simp [recordInteraction, aiInteractionsOf, hcm, take_trim] <;> omega
  refine ⟨hrec, ?_, ?_, ?_⟩
  · rw [hrec]
    cases cap with
    | zero => omega
    | succ n => rw [List.take_succ_cons]; rfl
  · rw [hrec, List.length_take]; omega
  · cases hcm : ctx.contextMemory <;>
      simp [recordInteraction, lastUpdatedOf, hcm]

/-- The context-memory section holding one logged interaction. -/
def oneLoggedCm : ContextMemoryData :=
  { lastUpdated := some "t1",
    aiInteractions := some [{ timestamp := "t1", action := "security-fix",
                              context := "c1", result := "r1",
                              metadata := none }] }

/-- A context holding one logged interaction (for the C3 witness). -/
def ctxOneLogged : ProjectContext :=
  { baseCtx with contextMemory := some oneLoggedCm }

/-- Witness for C3 at cap 1: the new interaction evicts the old one. -/
theorem C3_witness :
    1 ≤ 1 ∧
    (aiInteractionsOf (recordInteraction 1 ctxOneLogged "component-creation" "c2" "r2" none "t2") =
      ({ timestamp := "t2", action := "component-creation", context := "c2",
         result := "r2", metadata := none } :: aiInteractionsOf ctxOneLogged).take 1 ∧
    (aiInteractionsOf (recordInteraction 1 ctxOneLogged "component-creation" "c2" "r2" none "t2")).head? =
      some { timestamp := "t2", action := "component-creation", context := "c2",
             result := "r2", metadata := none } ∧
    (aiInteractionsOf (recordInteraction 1 ctxOneLogged "component-creation" "c2" "r2" none "t2")).length ≤ 1 ∧
    lastUpdatedOf (recordInteraction 1 ctxOneLogged "component-creation" "c2" "r2" none "t2") = some "t2") :=
  ⟨by decide,
   C3_recordInteraction_bounded_newest_first 1 ctxOneLogged "component-creation" "c2" "r2" none "t2" (by decide)⟩

/-- **C10.** `ProjectContextManager.recordAiInteraction` keeps the log
under the opposite discipline from `ContextMemory.recordInteraction`: it
appends the new interaction at the end (oldest first), keeps at most 50
entries by dropping from the front, and leaves `lastUpdated` untouched. -/
theorem C10_recordAiInteraction_append_oldest_first
    (ctx : ProjectContext) (now action contextInfo result : String) :
    aiInteractionsOf (recordAiInteraction ctx now action contextInfo result) =
      (aiInteractionsOf ctx ++ [({ timestamp := now, action := action,
                                   context := contextInfo, result := result,
                                   metadata := none } : AiInteraction)]).drop
        ((aiInteractionsOf ctx).length + 1 - 50) ∧
    (aiInteractionsOf (recordAiInteraction ctx now action contextInfo result)).length ≤ 50 ∧
    (aiInteractionsOf (recordAiInteraction ctx now action contextInfo result)).getLast? =
      some { timestamp := now, action := action, context := contextInfo,
             result := result, metadata := none } ∧
    lastUpdatedOf (recordAiInteraction ctx now action contextInfo result) = lastUpdatedOf ctx := by
  have hrec : aiInteractionsOf (recordAiInteraction ctx now action contextInfo result) =
      (aiInteractionsOf ctx ++ [({ timestamp := now, action := action,
                                   context := contextInfo, result := result,
                                   metadata := none } : AiInteraction)]).drop
        ((aiInteractionsOf ctx).length + 1 - 50) := by
    cases hcm : ctx.contextMemory <;>
      simp [recordAiInteraction, aiInteractionsOf, hcm] <;>
      try (intro h; rw [Nat.sub_eq_zero_of_le (by omega), List.drop_zero])
  refine ⟨hrec, ?_, ?_, ?_⟩
  · rw [hrec, List.length_drop]
    simp only [List.length_append, List.length_singleton]
    omega
  · rw [hrec]
    have hk : (aiInteractionsOf ctx).length + 1 - 50 - (aiInteractionsOf ctx).length = 0 := by
      omega
    rw [List.drop_append_eq_append_drop, hk, List.drop_zero, getLast?_append_single]
  · cases hcm : ctx.contextMemory <;>
      simp [recordAiInteraction, lastUpdatedOf, hcm]

/-- A weighted indicator is monotone in its flag. -/
theorem indicator_le (a b : Bool) (w : Nat) (h : a = true → b = true) :
    (if a then w else 0) ≤ (if b then w else 0) := by
  cases a <;> cases b <;> simp_all

/-- The spec's weighted sum is monotone under pointwise facet implication. -/
theorem facetWeightedSum_mono (f g : MaturityFacets) (h : facetsLe f g) :
    facetWeightedSum f ≤ facetWeightedSum g := by
  obtain ⟨h1, h2, h3, h4, h5, h6⟩ := h
  exact Nat.add_le_add
    (Nat.add_le_add
      (Nat.add_le_add
        (Nat.add_le_add
          (Nat.add_le_add (indicator_le _ _ _ h1) (indicator_le _ _ _ h2))
          (indicator_le _ _ _ h3))
        (indicator_le _ _ _ h4))
      (indicator_le _ _ _ h5))
    (indicator_le _ _ _ h6)

/-- **C7.** The maturity score is the weighted sum +20/+20/+15/+15/+15/+15
over the six facets, the label uses the 25/50/80 cutoffs, and the score is
monotone: a context whose facet vector dominates another's (in particular,
one extra facet made true, all else unchanged) never scores lower. -/
theorem C7_maturity_weights_thresholds_monotone (ctx c1 c2 : ProjectContext) :
    maturityScore ctx = facetWeightedSum (facetsOf ctx) ∧
    assessProjectMaturity ctx = maturityLabelSpec (maturityScore ctx) ∧
    (facetsLe (facetsOf c1) (facetsOf c2) → maturityScore c1 ≤ maturityScore c2) :=
  ⟨rfl, rfl, fun h => facetWeightedSum_mono (facetsOf c1) (facetsOf c2) h⟩

/-- Witness for C7: turning on the authentication facet alone does not
decrease the score. -/
theorem C7_witness :
    facetsLe (facetsOf baseCtx) (facetsOf ctxJwtOnly) ∧
    maturityScore baseCtx ≤ maturityScore ctxJwtOnly :=
  ⟨by decide,
   (C7_maturity_weights_thresholds_monotone baseCtx baseCtx ctxJwtOnly).2.2 (by decide)⟩

/-- `==` on strings is symmetric. -/
theorem string_beq_comm (a b : String) : (a == b) = (b == a) := by
  by_cases h : a = b
  · subst h; rfl
  · rw [beq_eq_false_iff_ne.mpr h, beq_eq_false_iff_ne.mpr (Ne.symm h)]

/-- `contains` on the projected path list is `any` on the endpoints. -/
theorem contains_map_path (eps : List ApiEndpoint) (p : String) :
    (eps.map (·.path)).contains p = eps.any (fun e => e.path == p) := by
  induction eps with
  | nil => rfl
  | cons e t ih =>
    simp only [List.map_cons, List.contains_cons, List.any_cons, ih]
    rw [string_beq_comm]

/-- Congruence for `filterMap` (pointwise equal functions on the list). -/
theorem filterMap_congr_on {α β : Type} (l : List α) (f g : α → Option β)
    (h : ∀ a ∈ l, f a = g a) : l.filterMap f = l.filterMap g := by
  induction l with
  | nil => rfl
  | cons a t ih =>
    rw [List.filterMap_cons, List.filterMap_cons, h a (List.mem_cons_self a t),
        ih (fun x hx => h x (List.mem_cons_of_mem a hx))]

/-- **C8.** On discovered calls (whose parsed path is never empty, as
`findFrontendApiCalls` only reports quoted URLs), `generateMissingEndpoints`
synthesizes exactly one endpoint per call without a declared path match,
carrying the auto-generated description, empty inferred parameters, and an
authentication flag that is true exactly when the lowercased path contains
one of user/profile/dashboard/admin/account. -/
theorem C8_generateMissingEndpoints_matches_spec (ctx : ProjectContext)
    (calls : List String) (h : ∀ c ∈ calls, (parseApiCall c).2 ≠ "") :
    generateMissingEndpoints ctx calls = specMissingEndpoints ctx calls := by
  unfold generateMissingEndpoints specMissingEndpoints
  refine filterMap_congr_on calls _ _ (fun c hc => ?_)
  have hp := h c hc
  rcases hpc : parseApiCall c with ⟨m, p⟩
  rw [hpc] at hp
  simp only at hp
  have hne : (p != "") = true := by simpa using hp
  simp only [hpc, hne, Bool.true_and, contains_map_path]
  cases hmatch : (endpointsOf ctx).any (fun e => e.path == p) <;>
    simp [inferParameters, shouldRequireAuth]

/-- Witness for C8 on one discovered call with no declared endpoints. -/
theorem C8_witness :
    generateMissingEndpoints baseCtx ["a.js:fetch(\"/api/users\")"] =
      specMissingEndpoints baseCtx ["a.js:fetch(\"/api/users\")"] :=
  C8_generateMissingEndpoints_matches_spec baseCtx ["a.js:fetch(\"/api/users\")"] (by decide)

/-- **C9, amended.** `generateSuggestions` returns at most five
suggestions, produced in the fixed evaluation order of its rule list (the
most-frequent-action rule first, then the five completeness rules); the
list can be empty (see the counterexample), so the correct bound is 0–5,
not 1–5. -/
theorem C9_suggestions_order_and_cap (ctx : ProjectContext) :
    generateSuggestions ctx = (specSuggestionList ctx).take 5 ∧
    (generateSuggestions ctx).length ≤ 5 := by
  constructor
  · unfold generateSuggestions specSuggestionList c9CompletenessRules
    cases h1 : endpointsMissing ctx <;> cases h2 : authMissing ctx <;>
      cases h3 : httpsNotEnforced ctx <;> cases h4 : componentsMissing ctx <;>
      cases h5 : modelsMissing ctx <;>
      simp [List.filterMap_cons]
  · exact List.length_take_le 5 _

/-- The business-rule errors `validateBusinessLogic` accumulates when the
`security` section is present (so no branch can throw): the sanitization
block's errors followed by the production-HTTPS block's. -/
def bizErrorsWithSec (ctx : ProjectContext) (sec : SecurityConfiguration) :
    List ValidationError :=
  (match ctx.database.bind (·.models) with
   | some models =>
     if hasSensitiveData models then
       (if !((sec.rules.bind (·.inputSanitization)) == some true) then
         [sanitizationError]
       else [])
     else []
   | none => []) ++
  (match (ctx.deployment.bind (·.environment)).bind (·.production) with
   | some _ =>
     (if !((sec.rules.bind (·.enforceHttps)) == some true) then [httpsError]
      else [])
   | none => [])

/-- With `security` present, `validateBusinessLogic` returns (never
throws), and its errors are exactly `bizErrorsWithSec`. -/
theorem validateBusinessLogic_with_sec (ctx : ProjectContext)
    (sec : SecurityConfiguration) (hs : ctx.security = some sec) :
    validateBusinessLogic ctx = .ok (bizErrorsWithSec ctx sec, authEndpointWarnings ctx) := by
  have h1 : sensitiveDataErrors ctx = .ok
      (match ctx.database.bind (·.models) with
       | some models =>
         if hasSensitiveData models then
           (if !((sec.rules.bind (·.inputSanitization)) == some true) then
             [sanitizationError]
           else [])
         else []
       | none => []) := by
    unfold sensitiveDataErrors
    rcases hdb : ctx.database.bind (·.models) with _ | models
    · rfl
    · cases hS : hasSensitiveData models
      · simp [hS]
      · rw [hs]
        cases hI : (sec.rules.bind (·.inputSanitization)) == some true <;>
          simp [hS, hI, sanitizationError]
  have h2 : productionHttpsErrors ctx = .ok
      (match (ctx.deployment.bind (·.environment)).bind (·.production) with
       | some _ =>
         (if !((sec.rules.bind (·.enforceHttps)) == some true) then [httpsError]
          else [])
       | none => []) := by
    unfold productionHttpsErrors
    rcases hprod : (ctx.deployment.bind (·.environment)).bind (·.production) with _ | env
    · rfl
    · rw [hs]
      cases hH : (sec.rules.bind (·.enforceHttps)) == some true <;>
        simp [hH, httpsError]
  unfold validateBusinessLogic bizErrorsWithSec
  rw [h1, h2]

/-- **C5, amended.** For every context whose `security` section is present
(the TS type requires it; an unvalidated loaded context may omit it, and
then `validateContext` can throw — see the counterexample),
`validateContext` never throws: it returns the structured result whose
errors are the schema errors followed by the business-rule errors, whose
warnings are the auth-endpoint warnings, and whose `valid` flag is true
exactly when the errors list is empty.  The embedding is a pure function,
so validation mutates nothing. -/
theorem C5_validateContext_total_with_security
    (schemaErrors : ProjectContext → List ValidationError) (ctx : ProjectContext)
    (sec : SecurityConfiguration) (hs : ctx.security = some sec) :
    validateContext schemaErrors ctx =
      .ok { valid := (schemaErrors ctx ++ bizErrorsWithSec ctx sec).isEmpty,
            errors := schemaErrors ctx ++ bizErrorsWithSec ctx sec,
            warnings := authEndpointWarnings ctx } ∧
    (vcValid (validateContext schemaErrors ctx) = true ↔
      vcErrors (validateContext schemaErrors ctx) = []) := by
  have hv := validateBusinessLogic_with_sec ctx sec hs
  have hok : validateContext schemaErrors ctx =
      .ok { valid := (schemaErrors ctx ++ bizErrorsWithSec ctx sec).isEmpty,
            errors := schemaErrors ctx ++ bizErrorsWithSec ctx sec,
            warnings := authEndpointWarnings ctx } := by
    unfold validateContext
    rw [hv]
  refine ⟨hok, ?_⟩
  rw [hok]
  simp [vcValid, vcErrors, List.isEmpty_iff]

/-- The security section of `ctxComplete`. -/
def ctxCompleteSec : SecurityConfiguration :=
  { rules := some { noRules with enforceHttps := some true }, patterns := none }

/-- Witness for C5 at a complete concrete context. -/
theorem C5_witness :
    ctxComplete.security = some ctxCompleteSec ∧
    (vcValid (validateContext (fun _ => []) ctxComplete) = true ↔
      vcErrors (validateContext (fun _ => []) ctxComplete) = []) :=
  ⟨rfl, (C5_validateContext_total_with_security (fun _ => []) ctxComplete ctxCompleteSec rfl).2⟩

/-- **C6, amended.** For every context with a database model field named
`password` while `security.rules.inputSanitization` is `false` (schema
validation contributing no errors), `validateContext` returns with
`valid = false` and exactly one error whose path references
`security.rules.inputSanitization`, reported with severity `error` — but
not necessarily exactly one error overall: the production-HTTPS rule can
add a second one (see the counterexample). -/
theorem C6_sensitive_field_requires_sanitization
    (schemaErrors : ProjectContext → List ValidationError) (ctx : ProjectContext)
    (sec : SecurityConfiguration) (rules : SecurityRules)
    (models : List DatabaseModel) (m : DatabaseModel) (f : DatabaseField)
    (hs : ctx.security = some sec) (hr : sec.rules = some rules)
    (hid : rules.inputSanitization = some false)
    (hdb : ctx.database.bind (·.models) = some models)
    (hm : m ∈ models) (hf : f ∈ m.fields) (hname : f.name = "password")
    (hse : schemaErrors ctx = []) :
    vcThrew (validateContext schemaErrors ctx) = false ∧
    vcValid (validateContext schemaErrors ctx) = false ∧
    (vcErrors (validateContext schemaErrors ctx)).filter
      (fun e => e.path == "security.rules.inputSanitization") = [sanitizationError] ∧
    sanitizationError.severity = .error := by
  have hsens : hasSensitiveData models = true := by
    unfold hasSensitiveData
    rw [List.any_eq_true]
    refine ⟨m, hm, ?_⟩
    rw [List.any_eq_true]
    refine ⟨f, hf, ?_⟩
    rw [hname]
    decide
  have hsan : (!((sec.rules.bind (·.inputSanitization)) == some true)) = true := by
    rw [hr]
    show (!(rules.inputSanitization == some true)) = true
    rw [hid]
    rfl
  have hbe : ∃ rest, bizErrorsWithSec ctx sec = sanitizationError :: rest ∧
      rest.filter (fun e => e.path == "security.rules.inputSanitization") = [] := by
    unfold bizErrorsWithSec
    simp only [hdb]
    simp only [hsens, hsan, if_true, List.singleton_append]
    refine ⟨_, rfl, ?_⟩
    rcases hprod : (ctx.deployment.bind (·.environment)).bind (·.production) with _ | env
    · rfl
    · cases hH : (sec.rules.bind (·.enforceHttps)) == some true <;>
        simp [hH] <;> decide
  obtain ⟨rest, hbe1, hbe2⟩ := hbe
  have hv := validateBusinessLogic_with_sec ctx sec hs
  have hok : validateContext schemaErrors ctx =
      .ok { valid := false, errors := sanitizationError :: rest,
            warnings := authEndpointWarnings ctx } := by
    unfold validateContext
    rw [hv, hse, hbe1]
    rfl
  refine ⟨by rw [hok]; rfl, by rw [hok]; rfl, ?_, by decide⟩
  rw [hok]
  show (sanitizationError :: rest).filter
      (fun e => e.path == "security.rules.inputSanitization") = [sanitizationError]
  rw [List.filter_cons]
  simp only [hbe2]
  decide

/-- The rules of the C6 witness context. -/
def sanOffRules : SecurityRules := { noRules with inputSanitization := some false }

/-- The security section of the C6 witness context. -/
def sanOffSec : SecurityConfiguration :=
  { rules := some sanOffRules, patterns := none }

/-- Witness for C6 at the scenario context (password field, sanitization
off, nothing else configured). -/
theorem C6_witness :
    (ctxSanitizationOff.security = some sanOffSec ∧
     sanOffRules.inputSanitization = some false ∧
     ctxSanitizationOff.database.bind (·.models) = some [userPasswordModel] ∧
     userPasswordModel ∈ [userPasswordModel] ∧
     ({ name := "password", type := "string" } : DatabaseField) ∈ userPasswordModel.fields) ∧
    (vcThrew (validateContext (fun _ => []) ctxSanitizationOff) = false ∧
     vcValid (validateContext (fun _ => []) ctxSanitizationOff) = false ∧
     (vcErrors (validateContext (fun _ => []) ctxSanitizationOff)).filter
       (fun e => e.path == "security.rules.inputSanitization") = [sanitizationError] ∧
     sanitizationError.severity = .error) :=
  ⟨by decide,
   C6_sensitive_field_requires_sanitization (fun _ => []) ctxSanitizationOff
     sanOffSec sanOffRules [userPasswordModel] userPasswordModel
     { name := "password", type := "string" }
     rfl rfl rfl rfl (by decide) (by decide) rfl rfl⟩
